import Mathlib

/-!
Shallow embedding of the fan-control core of jetson_stats
(src/jtop/core/fan.py) and verification of the frozen claims about it.

Python dictionaries are modelled as ordered association lists
(insertion order preserved, as in CPython), Python ints as Int,
Python floats as Rat (exact arithmetic), and filesystem / systemd
side effects as an explicit trace of Effect values.  Functions that
can raise an uncaught Python exception (KeyError, IndexError,
ValueError) return Option, with none standing for the crash.
-/

/-- Ordered-dictionary lookup: d[k] when present. -/
def dictGet {α : Type} (d : List (String × α)) (k : String) : Option α :=
  match d with
  | [] => none
  | (k1, v) :: rest => if k1 = k then some v else dictGet rest k

/-- Ordered-dictionary assignment d[k] = v: overwrite in place if the key
exists, otherwise append (CPython insertion-order semantics). -/
def dictSet {α : Type} (d : List (String × α)) (k : String) (v : α) :
    List (String × α) :=
  match d with
  | [] => [(k, v)]
  | (k1, w) :: rest =>
      if k1 = k then (k, v) :: rest else (k1, w) :: dictSet rest k v

/-- Python list indexing lst[i]: nonnegative indices from the front,
negative indices from the back, IndexError (none) otherwise. -/
def pyGet {α : Type} (l : List α) (i : Int) : Option α :=
  if 0 ≤ i then l.get? i.toNat
  else if 0 ≤ i + l.length then l.get? (i + l.length).toNat
  else none

/-- Python int() applied to a rational: truncation toward zero. -/
def pyInt (q : Rat) : Int :=
  if 0 ≤ q then ⌊q⌋ else ⌈q⌉

/-- Source fan.py line 38: FAN_PWM_CAP = 256. -/
def FAN_PWM_CAP : Rat := 256

/-- Source fan.py lines 41-42: ValueToPWM(value, pwm_cap) =
int(value * pwm_cap / 100). -/
def ValueToPWM (value pwm_cap : Rat) : Int :=
  pyInt (value * pwm_cap / 100)

/-- Source fan.py lines 45-46: PWMtoValue(value, pwm_cap) =
float(value * 100 / pwm_cap). -/
def PWMtoValue (value pwm_cap : Rat) : Rat :=
  value * 100 / pwm_cap

/-- Source fan.py lines 423-426 of FanService.set_speed: clamp the
requested percentage into [0, 100]. -/
def clampSpeed (speed : Rat) : Rat :=
  let s1 := if speed > 100 then 100 else speed
  if s1 < 0 then 0 else s1

theorem clampSpeed_nonneg (speed : Rat) : 0 ≤ clampSpeed speed := by
  unfold clampSpeed
  dsimp only
  split <;> split <;> linarith

theorem clampSpeed_le (speed : Rat) : clampSpeed speed ≤ 100 := by
  unfold clampSpeed
  dsimp only
  split <;> split <;> linarith

/-!
Daemon configuration parsing (source fan.py lines 133-151,
decode_nvfancontrol) together with the two regular expressions it uses,
FAN_NVFAN_NAME_RE (line 34) and FAN_NVFAN_OPTIONS_RE (line 35).
The regular expressions are compiled to character-level matchers:
both are deterministic because a greedy word run cannot backtrack into
a position where a non-word character is required.
-/

/-- A regex word character, as in a backslash-w class (ASCII fragment). -/
def isWordChar (c : Char) : Bool :=
  c.isAlphanum || c = '_'

/-- Python str.strip(): remove leading and trailing whitespace. -/
def pyStrip (s : List Char) : List Char :=
  ((s.dropWhile Char.isWhitespace).reverse.dropWhile Char.isWhitespace).reverse

/-- Python str.lower() on one character (ASCII fragment). -/
def lowerChar (c : Char) : Char :=
  if 'A' ≤ c ∧ c ≤ 'Z' then Char.ofNat (c.toNat + 32) else c

/-- Python str.lower() (ASCII fragment). -/
def pyLower (s : List Char) : List Char :=
  s.map lowerChar

/-- Digit-string value, for Python int() on file contents. -/
def parseNatChars (ds : List Char) : Option Nat :=
  if ds ≠ [] ∧ ds.all Char.isDigit then
    some (ds.foldl (fun acc c => acc * 10 + (c.toNat - 48)) 0)
  else none

/-- Python int() on a string: an optional sign followed by digits;
none is the ValueError. -/
def parseIntChars : List Char → Option Int
  | '-' :: ds => (parseNatChars ds).map (fun n => -(n : Int))
  | ds => (parseNatChars ds).map (fun n => (n : Int))

/-- Full match of the stripped line against FAN_NVFAN_NAME_RE,
the anchored pattern for a fan header line: the literal prefix
"<FAN ", one or more digits, then ">" ending the line.  Returns the
digit group. -/
def parseFanNum : List Char → Option (List Char)
  | '<' :: 'F' :: 'A' :: 'N' :: ' ' :: rest =>
      let ds := rest.takeWhile Char.isDigit
      if ds ≠ [] ∧ rest.drop ds.length = ['>'] then some ds else none
  | _ => none

/-- Match of FAN_NVFAN_OPTIONS_RE at the current position: the literal
"FAN_", a word run (the type group), a space, a word run (the value
group), then a space and an opening brace ending the line. -/
def optionsAt : List Char → Option (List Char × List Char)
  | 'F' :: 'A' :: 'N' :: '_' :: rest =>
      let ty := rest.takeWhile isWordChar
      if ty = [] then none
      else
        match rest.drop ty.length with
        | ' ' :: rest2 =>
            let v := rest2.takeWhile isWordChar
            if v = [] then none
            else
              match rest2.drop v.length with
              | [' ', '\x7b'] => some (ty, v)
              | _ => none
        | _ => none
  | _ => none

/-- re.search of FAN_NVFAN_OPTIONS_RE: the leftmost position at which
the pattern matches. -/
def searchOptions : List Char → Option (List Char × List Char)
  | [] => none
  | c :: rest =>
      match optionsAt (c :: rest) with
      | some r => some r
      | none => searchOptions rest

/-- The mutable state of the decode_nvfancontrol loop: the accumulated
mapping and the current_fan key (initially the empty string). -/
structure NvState where
  nvfan : List (String × List (String × List String))
  current : String
  deriving DecidableEq

/-- One iteration of the decode_nvfancontrol loop on a single line of
the configuration file (source fan.py lines 138-150).  A header line
opens (or resets) the block keyed "fan{num}"; an options line appends
the value group to the list keyed by the lowercased type group inside
the current block.  none models the KeyError raised when an options
line precedes any header line. -/
def decodeStep (st : NvState) (line : String) : Option NvState :=
  let t := pyStrip line.toList
  match parseFanNum t with
  | some ds =>
      let key := "fan" ++ String.mk ds
      some ⟨dictSet st.nvfan key [], key⟩
  | none =>
      match searchOptions t with
      | some (ty, v) =>
          match dictGet st.nvfan st.current with
          | none => none
          | some block =>
              let tyl := String.mk (pyLower ty)
              let prev := (dictGet block tyl).getD []
              let block2 := dictSet block tyl (prev ++ [String.mk v])
              some ⟨dictSet st.nvfan st.current block2, st.current⟩
      | none => some st

/-- decode_nvfancontrol over the list of lines of /etc/nvfancontrol.conf
(source fan.py lines 133-151). -/
def decode_nvfancontrol (lines : List String) :
    Option (List (String × List (String × List String))) :=
  (lines.foldlM decodeStep ⟨[], ""⟩).map NvState.nvfan

/-!
The service-side registry (FanService, source fan.py lines 279-469).
A fan dictionary entry carries the keys set by get_all_cooling_system
(path, pwm, optionally rpm) plus those added by the constructor
(control, profile).  Missing dictionary keys are Option none.  Daemon
configuration blocks merged by dict.update can carry further keys
(governor, control curves, ...), but only the profile key is ever read
back by the source, so only it is kept in the embedding.
-/

structure FanUnit where
  path : String
  pwm : List String
  rpm : Option (List String)
  control : Option String
  profile : Option (List String)
  deriving DecidableEq

/-- dict.update of a fan entry with a decoded daemon block (source
fan.py line 300): the profile key is overwritten when the block has
one, otherwise kept. -/
def updateFan (fan : FanUnit) (nvdict : List (String × List String)) :
    FanUnit :=
  match dictGet nvdict "profile" with
  | some ps => { fan with profile := some ps }
  | none => fan

/-- The daemon branch of the constructor (source fan.py lines 297-303):
for fan, nvfan in zip(fan_list, nv_fan_modes) merge the decoded block
into the fan entry and append "manual" to its profile list when the
merged entry has one.  Fans beyond the length of nv_fan_modes are left
untouched. -/
def applyNvModes : List (String × FanUnit) →
    List (String × List (String × List String)) → List (String × FanUnit)
  | [], _ => []
  | fans, [] => fans
  | (name, fan) :: fans, (_, nvdict) :: modes =>
      let fan1 := updateFan fan nvdict
      let fan2 :=
        match fan1.profile with
        | some ps => { fan1 with profile := some (ps ++ ["manual"]) }
        | none => fan1
      (name, fan2) :: applyNvModes fans modes

/-- The local branch of the constructor for one fan (source fan.py
lines 305-317): start from an empty profile list, add "temp_control"
and the control path when path/temp_control is a file, then append
"manual". -/
def initLocalFan (isfile : List String) (fan : FanUnit) : FanUnit :=
  let control := fan.path ++ "/temp_control"
  if control ∈ isfile then
    { fan with control := some control,
               profile := some (([] : List String) ++ ["temp_control"] ++ ["manual"]) }
  else
    { fan with profile := some (([] : List String) ++ ["manual"]) }

/-- FanService.__init__ profile initialisation (source fan.py lines
295-317), starting from the registry produced by discovery.
nvInstalled is the service-unit existence check of line 293, nvModes
the result of decode_nvfancontrol, isfile the set of existing files. -/
def initFanList (discovered : List (String × FanUnit)) (nvInstalled : Bool)
    (nvModes : List (String × List (String × List String)))
    (isfile : List String) : List (String × FanUnit) :=
  if nvInstalled then
    applyNvModes discovered nvModes
  else
    discovered.map (fun p => (p.1, initLocalFan isfile p.2))

/-- Does a registered unit have a profile list containing "manual"? -/
def hasManual (u : FanUnit) : Bool :=
  match u.profile with
  | some ps => "manual" ∈ ps
  | none => false

/-!
Dynamic service state: the registry, the daemon-installed flag, the
persisted jtop configuration (the per-fan dict stored under the
"fan" key) and the outside world (sysfs node contents, writability,
systemd state, the daemon status file and the daemon live query).
External actions are recorded in an Effect trace.
-/

structure FanConfigEntry where
  profile : Option String
  speed : Option (Rat × Int)
  deriving DecidableEq

structure Env where
  nodeValues : List (String × String)
  writable : List String
  nvActive : Bool
  nvQuery : List (String × List (String × String))
  statusFile : Bool
  deriving DecidableEq

structure ServiceState where
  fan_list : List (String × FanUnit)
  nvfancontrol : Bool
  config_fan : List (String × FanConfigEntry)
  env : Env
  deriving DecidableEq

inductive Effect where
  | writeNode (path value : String)
  | configSet
  | systemctlStop
  | systemctlStart
  | nvRewriteDefault (key value : String)
  | removeStatusFile
  | logError (msg : String)
  deriving DecidableEq

/-- Write a sysfs node: the file content changes. -/
def writeNodeState (s : ServiceState) (path value : String) : ServiceState :=
  { s with env := { s.env with nodeValues := dictSet s.env.nodeValues path value } }

/-- The zip loop of FanService.get_profile lines 348-350: pair registry
names positionally with daemon query entries and return the query block
of the pair whose registry name equals the requested one. -/
def zipFind : List String → List (String × List (String × String)) →
    String → Option (List (String × String))
  | n :: ns, q :: qs, name =>
      if n = name then some q.2 else zipFind ns qs name
  | _, _, _ => none

/-- FanService.get_profile (source fan.py lines 340-355).  Returns the
empty string for an unknown fan (after logging an error); under daemon
control and an active daemon, the profile reported by the live query;
otherwise "manual" unless a local control node reads 1, in which case
"temp_control".  none models an uncaught KeyError or ValueError. -/
def get_profileS (s : ServiceState) (name : String) : Option String :=
  match dictGet s.fan_list name with
  | none => some ""
  | some fan =>
      if s.nvfancontrol then
        if s.env.nvActive then
          match zipFind (s.fan_list.map Prod.fst) s.env.nvQuery name with
          | some q => dictGet q "profile"
          | none => some "manual"
        else some "manual"
      else
        match fan.control with
        | some path =>
            match (dictGet s.env.nodeValues path).bind
                (fun c => parseIntChars c.toList) with
            | some v => some (if v = 1 then "temp_control" else "manual")
            | none => none
        | none => some "manual"

/-- The branch of FanService.set_profile that actually applies a
profile (source fan.py lines 365-404), shared between the daemon case
and the local case.  The outer Option models the KeyError on a fan
entry without a profile list; the inner Option is none when the
profile is not in the profile list (the function then logs an error
and returns False without touching the configuration). -/
def applyProfileBranch (s : ServiceState) (fan : FanUnit) (profile : String) :
    Option (Option (ServiceState × List Effect)) :=
  match fan.profile with
  | none => none
  | some profs =>
      if s.nvfancontrol then
        if profile ∈ profs then
          let stopEffs := if s.env.nvActive then [Effect.systemctlStop] else []
          let s1 := { s with env := { s.env with nvActive := false } }
          if profile = "manual" then
            some (some (if s.env.nvActive then s1 else s, stopEffs))
          else
            let rmEffs := if s1.env.statusFile then [Effect.removeStatusFile] else []
            let s2 := { s1 with env := { s1.env with statusFile := false, nvActive := true } }
            some (some (s2,
              stopEffs ++ [Effect.nvRewriteDefault "profile" profile]
                ++ rmEffs ++ [Effect.systemctlStart]))
        else some none
      else
        if profile ∈ profs then
          -- source line 393: control_value = "0" if FAN_MANUAL_NAME else "1";
          -- the condition is the constant nonempty string FAN_MANUAL_NAME,
          -- so control_value is always "0"
          let cv := "0"
          match fan.control with
          | some control =>
              if control ∈ s.env.writable then
                some (some (writeNodeState s control cv,
                  [Effect.writeNode control cv]))
              else some (some (s, []))
          | none => some (some (s, []))
        else some none

/-- FanService.set_profile (source fan.py lines 357-413).  Returns the
Python return value, the successor state and the effect trace; none is
an uncaught exception. -/
def set_profileS (s : ServiceState) (name profile : String) :
    Option (Bool × ServiceState × List Effect) :=
  match dictGet s.fan_list name with
  | none =>
      some (false, s,
        [Effect.logError ("Fan \"" ++ name ++ "\" does not exist")])
  | some fan =>
      match get_profileS s name with
      | none => none
      | some cur =>
          if profile = cur then some (true, s, [])
          else
            match applyProfileBranch s fan profile with
            | none => none
            | some none =>
                some (false, s,
                  [Effect.logError ("Profile " ++ profile ++ " doesn\x27t exist")])
            | some (some (s1, effs)) =>
                let entry := (dictGet s1.config_fan name).getD ⟨none, none⟩
                let fc2 := dictSet s1.config_fan name
                  { entry with profile := some profile }
                some (true, { s1 with config_fan := fc2 },
                  effs ++ [Effect.configSet])

/-- FanService.set_speed (source fan.py lines 415-441).  Unknown names
and indices at or above the pwm count are logged and ignored; otherwise
the clamped speed is persisted to the configuration and, when the node
is writable, written to the pwm node selected by Python list indexing
(so a negative index counts from the back).  none is an uncaught
IndexError; in that crash case the embedding drops the configuration
write the source performs just before raising. -/
def set_speedS (s : ServiceState) (name : String) (speed : Rat)
    (index : Int) : Option (ServiceState × List Effect) :=
  match dictGet s.fan_list name with
  | none =>
      some (s, [Effect.logError ("This fan " ++ name ++ " doesn\x27t exist")])
  | some fan =>
      if (fan.pwm.length : Int) ≤ index then
        some (s, [Effect.logError
          ("Wrong index " ++ toString index ++ " for " ++ name)])
      else
        let sp := clampSpeed speed
        let entry := (dictGet s.config_fan name).getD ⟨none, none⟩
        let fc2 := dictSet s.config_fan name { entry with speed := some (sp, index) }
        let s1 := { s with config_fan := fc2 }
        let pwm := toString (ValueToPWM sp FAN_PWM_CAP)
        match pyGet fan.pwm index with
        | none => none
        | some path =>
            if path ∈ s.env.writable then
              some (writeNodeState s1 path pwm,
                [Effect.configSet, Effect.writeNode path pwm])
            else some (s1, [Effect.configSet])

/-!
The client facade (class Fan, source fan.py lines 175-276).  Its state
is the last pushed status snapshot (_data) and the per-fan profile
lists received at initialisation (_init).  A mutating call either
raises a JtopException (Except.error with the exception message) or
succeeds, optionally placing one command on the one-way channel
(.ok (some cmd)); .ok none is a silent no-op.  The outer Option on
operations touching _init models an uncaught KeyError.
-/

structure FanData where
  speed : List Rat
  rpm : Option (List Int)
  profile : String
  deriving DecidableEq

structure ClientState where
  data : List (String × FanData)
  init : List (String × List String)
  deriving DecidableEq

inductive Cmd where
  | profile (name value : String)
  | speed (name : String) (value : Rat) (idx : Int)
  deriving DecidableEq

/-- The JtopException message for an unregistered fan name (source
fan.py lines 183, 188, 201, 224, ...). -/
def unknownFanMsg (name : String) : String :=
  "Fan \"" ++ name ++ "\" does not exist"

/-- The JtopException message for an out-of-range pwm index (source
fan.py line 226). -/
def badIndexMsg (name : String) (len : Nat) : String :=
  "Fan \"" ++ name ++ "\" have only " ++ toString len ++ " fans"

/-- Fan.all_profiles (source fan.py lines 181-184). -/
def all_profilesC (st : ClientState) (name : String) :
    Option (Except String (List String)) :=
  if (dictGet st.data name).isNone then
    some (Except.error (unknownFanMsg name))
  else
    match dictGet st.init name with
    | none => none
    | some l => some (Except.ok l)

/-- Fan.set_profile (source fan.py lines 186-197): raise on unknown fan
or unknown profile, skip when the snapshot already reports the
requested profile, otherwise emit a profile command. -/
def set_profileC (st : ClientState) (name profile : String) :
    Option (Except String (Option Cmd)) :=
  match dictGet st.data name with
  | none => some (Except.error (unknownFanMsg name))
  | some d =>
      match all_profilesC st name with
      | none => none
      | some (Except.error e) => some (Except.error e)
      | some (Except.ok profs) =>
          if profile ∉ profs then
            some (Except.error
              ("Profile \"" ++ profile ++ "\" does not exist for Fan \""
                ++ name ++ "\". Available: " ++ " ".intercalate profs))
          else if profile = d.profile then some (Except.ok none)
          else some (Except.ok (some (Cmd.profile name profile)))

/-- Fan.get_profile (source fan.py lines 199-202). -/
def get_profileC (st : ClientState) (name : String) :
    Except String String :=
  match dictGet st.data name with
  | none => Except.error (unknownFanMsg name)
  | some d => Except.ok d.profile

/-- Fan.set_speed (source fan.py lines 222-231): raise on unknown fan
or out-of-range index (negative included), skip when the snapshot
already records the value at that index, otherwise emit a speed
command. -/
def set_speedC (st : ClientState) (name : String) (speed : Rat)
    (idx : Int) : Except String (Option Cmd) :=
  match dictGet st.data name with
  | none => Except.error (unknownFanMsg name)
  | some d =>
      if (d.speed.length : Int) ≤ idx ∨ idx < 0 then
        Except.error (badIndexMsg name d.speed.length)
      else
        -- the bound check above makes the default of getD unreachable
        if speed = d.speed.getD idx.toNat 0 then Except.ok none
        else Except.ok (some (Cmd.speed name speed idx))

/-- Fan.get_speed (source fan.py lines 233-238). -/
def get_speedC (st : ClientState) (name : String) (idx : Int) :
    Except String Rat :=
  match dictGet st.data name with
  | none => Except.error (unknownFanMsg name)
  | some d =>
      if (d.speed.length : Int) ≤ idx ∨ idx < 0 then
        Except.error (badIndexMsg name d.speed.length)
      else Except.ok (d.speed.getD idx.toNat 0)

/-- Fan.get_rpm (source fan.py lines 259-266). -/
def get_rpmC (st : ClientState) (name : String) (idx : Int) :
    Except String Int :=
  match dictGet st.data name with
  | none => Except.error (unknownFanMsg name)
  | some d =>
      match d.rpm with
      | none => Except.error ("Fan \"" ++ name ++ "\" doesn\x27t have RPM")
      | some rpms =>
          if (rpms.length : Int) ≤ idx ∨ idx < 0 then
            Except.error (badIndexMsg name rpms.length)
          else Except.ok (rpms.getD idx.toNat 0)

/-- The profile property getter (source fan.py lines 204-212): the
profile of the first registered fan, or None when the snapshot is
empty. -/
def profileProp (st : ClientState) : Except String (Option String) :=
  match st.data with
  | [] => Except.ok none
  | (name, _) :: _ =>
      match get_profileC st name with
      | Except.error e => Except.error e
      | Except.ok v => Except.ok (some v)

/-- The profile property setter (source fan.py lines 214-220): set the
profile of the first registered fan, or do nothing when the snapshot is
empty. -/
def profileSetter (st : ClientState) (value : String) :
    Option (Except String (Option Cmd)) :=
  match st.data with
  | [] => some (Except.ok none)
  | (name, _) :: _ => set_profileC st name value

/-- The speed property getter (source fan.py lines 240-249). -/
def speedProp (st : ClientState) : Except String (Option Rat) :=
  match st.data with
  | [] => Except.ok none
  | (name, _) :: _ =>
      match get_speedC st name 0 with
      | Except.error e => Except.error e
      | Except.ok v => Except.ok (some v)

/-- The speed property setter (source fan.py lines 251-257). -/
def speedSetter (st : ClientState) (value : Rat) :
    Except String (Option Cmd) :=
  match st.data with
  | [] => Except.ok none
  | (name, _) :: _ => set_speedC st name value 0

/-- The rpm property getter (source fan.py lines 268-276). -/
def rpmProp (st : ClientState) : Except String (Option Int) :=
  match st.data with
  | [] => Except.ok none
  | (name, _) :: _ =>
      match get_rpmC st name 0 with
      | Except.error e => Except.error e
      | Except.ok v => Except.ok (some v)

/-!
Concrete states used by the counterexamples and witnesses below.
-/

/-- A locally managed one-fan registry whose control toggle node /c is
writable and currently reads 0 (profile "manual"). -/
def localFanUnit : FanUnit :=
  ⟨"/h0", ["/h0/pwm1"], none, some "/c", some ["temp_control", "manual"]⟩

def localState : ServiceState :=
  ⟨[("fan0", localFanUnit)], false, [],
   ⟨[("/c", "0")], ["/c"], false, [], false⟩⟩

/-- localState after set_profile("fan0", "temp_control"): the
configuration records temp_control but the node still holds "0". -/
def localState2 : ServiceState :=
  ⟨[("fan0", localFanUnit)], false,
   [("fan0", ⟨some "temp_control", none⟩)],
   ⟨[("/c", "0")], ["/c"], false, [], false⟩⟩

/-- A one-fan, one-channel local registry whose configuration already
records speed (50, 0) and whose writable node p0 already holds the
matching raw value "128". -/
def repeatState : ServiceState :=
  ⟨[("fan0", ⟨"/h0", ["p0"], none, none, some ["manual"]⟩)], false,
   [("fan0", ⟨none, some (50, 0)⟩)],
   ⟨[("p0", "128")], ["p0"], false, [], false⟩⟩

/-- negState after set_speed("fan0", 200, 0): the percentage was
clamped to 100 and the raw value 256 written to node p0. -/
def clampWriteState : ServiceState :=
  ⟨[("fan0", ⟨"/h0", ["p0"], none, none, some ["manual"]⟩)], false,
   [("fan0", ⟨none, some (100, 0)⟩)],
   ⟨[("p0", "256")], ["p0"], false, [], false⟩⟩

/-- A one-fan, one-channel local registry with writable node p0. -/
def negState : ServiceState :=
  ⟨[("fan0", ⟨"/h0", ["p0"], none, none, some ["manual"]⟩)], false, [],
   ⟨[("p0", "0")], ["p0"], false, [], false⟩⟩

/-- negState after set_speed("fan0", 30, -1): the configuration
records (30, -1) and node p0 was written with raw "76". -/
def negState2 : ServiceState :=
  ⟨[("fan0", ⟨"/h0", ["p0"], none, none, some ["manual"]⟩)], false,
   [("fan0", ⟨none, some (30, -1)⟩)],
   ⟨[("p0", "76")], ["p0"], false, [], false⟩⟩

/-- A daemon-managed one-fan registry: the daemon is installed and
active, reports profile "quiet" for fan0, and its cached status file
exists. -/
def daemonFanUnit : FanUnit :=
  ⟨"/h0", ["p0"], none, none, some ["quiet", "cool", "manual"]⟩

def daemonState : ServiceState :=
  ⟨[("fan0", daemonFanUnit)], true, [],
   ⟨[], [], true, [("fan0", [("profile", "quiet")])], true⟩⟩

/-- daemonState after set_profile("fan0", "manual"): the daemon was
stopped and the configuration records manual. -/
def daemonState2 : ServiceState :=
  ⟨[("fan0", daemonFanUnit)], true,
   [("fan0", ⟨some "manual", none⟩)],
   ⟨[], [], false, [("fan0", [("profile", "quiet")])], true⟩⟩

/-- A snapshot/profile-list pair for one client fan reporting profile
"manual" and speed 40 on channel 0. -/
def clientState : ClientState :=
  ⟨[("fan0", ⟨[40], none, "manual"⟩)], [("fan0", ["temp_control", "manual"])]⟩

/-!
Claims.
-/

/-- C7: for every percentage p in [0, 100] the raw/percent round trip
PWMtoValue (ValueToPWM p) with CAP = 256 lands within one rounding
unit 100/256 of p, and raw 128 and 64 convert to 50.0 and 25.0
percent. -/
theorem pwm_roundtrip :
    (∀ p : Rat, 0 ≤ p → p ≤ 100 →
      |PWMtoValue ((ValueToPWM p FAN_PWM_CAP : Int) : Rat) FAN_PWM_CAP - p|
        ≤ 100 / 256) ∧
    PWMtoValue 128 FAN_PWM_CAP = 50 ∧ PWMtoValue 64 FAN_PWM_CAP = 25 := by
  refine ⟨fun p hp0 hp100 => ?_, by norm_num [PWMtoValue, FAN_PWM_CAP],
    by norm_num [PWMtoValue, FAN_PWM_CAP]⟩
  unfold ValueToPWM pyInt PWMtoValue FAN_PWM_CAP
  have hx : (0:Rat) ≤ p * 256 / 100 := by positivity
  rw [if_pos hx, abs_le]
  have h1 : ((⌊p * 256 / 100⌋ : Int) : Rat) ≤ p * 256 / 100 := Int.floor_le _
  have h2 : p * 256 / 100 - 1 < ((⌊p * 256 / 100⌋ : Int) : Rat) :=
    Int.sub_one_lt_floor _
  constructor <;> nlinarith

/-- C7 witness: the round-trip bound instantiated at p = 30. -/
theorem pwm_roundtrip_witness :
    |PWMtoValue ((ValueToPWM 30 FAN_PWM_CAP : Int) : Rat) FAN_PWM_CAP - 30|
      ≤ 100 / 256 :=
  pwm_roundtrip.1 30 (by norm_num) (by norm_num)

/-- C3 counterexample: ValueToPWM applies no clamping, so inputs
outside [0, 100] produce raw values outside [0, 256]: percentage 200
maps to raw 512 and percentage -50 maps to raw -128. -/
theorem valueToPWM_no_clamp_cex :
    ValueToPWM 200 FAN_PWM_CAP = 512 ∧ 256 < ValueToPWM 200 FAN_PWM_CAP ∧
    ValueToPWM (-50) FAN_PWM_CAP = -128 ∧ ValueToPWM (-50) FAN_PWM_CAP < 0 := by
  have h1 : ValueToPWM 200 FAN_PWM_CAP = 512 := by
    norm_num [ValueToPWM, pyInt, FAN_PWM_CAP]
  have h2 : ValueToPWM (-50) FAN_PWM_CAP = -128 := by
    norm_num [ValueToPWM, pyInt, FAN_PWM_CAP]
    rw [show ((-128:Rat)) = ((-128 : Int) : Rat) by norm_num, Int.ceil_intCast]
  exact ⟨h1, by rw [h1]; norm_num, h2, by rw [h2]; norm_num⟩

/-- C3 amended: the clamping lives in FanService.set_speed, not in
ValueToPWM.  set_speed clamps the percentage into [0, 100] before
converting, so the raw value of every node write it performs is
toString of ValueToPWM of the clamped input, which always lies in
[0, 256]. -/
theorem set_speed_clamped_write :
    (∀ speed : Rat,
        0 ≤ ValueToPWM (clampSpeed speed) FAN_PWM_CAP ∧
        ValueToPWM (clampSpeed speed) FAN_PWM_CAP ≤ 256) ∧
    (∀ (s : ServiceState) (name : String) (speed : Rat) (index : Int)
        (r : ServiceState × List Effect) (path v : String),
        set_speedS s name speed index = some r →
        Effect.writeNode path v ∈ r.2 →
        v = toString (ValueToPWM (clampSpeed speed) FAN_PWM_CAP)) := by
  constructor
  · intro speed
    have hc0 := clampSpeed_nonneg speed
    have hc100 := clampSpeed_le speed
    unfold ValueToPWM pyInt FAN_PWM_CAP
    have hx : (0:Rat) ≤ clampSpeed speed * 256 / 100 := by positivity
    rw [if_pos hx]
    constructor
    · exact Int.floor_nonneg.mpr hx
    · have hle : clampSpeed speed * 256 / 100 ≤ ((256 : Int) : Rat) := by
        push_cast
        linarith
      calc ⌊clampSpeed speed * 256 / 100⌋ ≤ ⌊((256 : Int) : Rat)⌋ :=
            Int.floor_le_floor hle
        _ = 256 := Int.floor_intCast 256
  · intro s name speed index r path v hrun hmem
    unfold set_speedS at hrun
    split at hrun
    · cases hrun; simp at hmem
    · split at hrun
      · cases hrun; simp at hmem
      · dsimp only at hrun
        split at hrun
        · cases hrun
        · split at hrun
          · cases hrun
            simp only [List.mem_cons, List.mem_singleton] at hmem
            rcases hmem with h | h | h
            · cases h
            · cases h; rfl
            · cases h
          · cases hrun
            simp at hmem

/-- C3 amended witness: at input percentage 200 on a one-channel fan
the node write carries raw value 256 = ValueToPWM 100, inside
[0, 256]. -/
theorem set_speed_clamped_write_witness :
    (0 ≤ ValueToPWM (clampSpeed 200) FAN_PWM_CAP ∧
        ValueToPWM (clampSpeed 200) FAN_PWM_CAP ≤ 256) ∧
    "256" = toString (ValueToPWM (clampSpeed 200) FAN_PWM_CAP) := by
  have h2 : ValueToPWM (clampSpeed 200) FAN_PWM_CAP = 256 := by
    norm_num [ValueToPWM, pyInt, clampSpeed, FAN_PWM_CAP]
  refine ⟨set_speed_clamped_write.1 200, ?_⟩
  refine set_speed_clamped_write.2 negState "fan0" 200 0
    (clampWriteState, [Effect.configSet, Effect.writeNode "p0" "256"])
    "p0" "256" ?_ ?_
  · simp only [set_speedS, h2]
    decide
  · decide

/-- Helper: in the daemon branch of the constructor, any fan entry
that ends up with a profile list has "manual" in it, provided the
discovered entries started without one. -/
theorem applyNvModes_manual (fans : List (String × FanUnit))
    (modes : List (String × List (String × List String)))
    (hdisc : ∀ q ∈ fans, (q.2).profile = none) :
    ∀ p ∈ applyNvModes fans modes, ∀ ps, (p.2).profile = some ps →
      "manual" ∈ ps := by
  induction fans generalizing modes with
  | nil =>
      intro p hp
      simp only [applyNvModes, List.not_mem_nil] at hp
  | cons q fans ih =>
      intro p hp ps hps
      cases modes with
      | nil =>
          simp only [applyNvModes] at hp
          rcases List.mem_cons.mp hp with h | h
          · subst h
            rw [hdisc q (List.mem_cons_self q fans)] at hps
            cases hps
          · rw [hdisc p (List.mem_cons_of_mem q h)] at hps
            cases hps
      | cons m modes =>
          obtain ⟨name, fan⟩ := q
          obtain ⟨mn, nvdict⟩ := m
          simp only [applyNvModes] at hp
          rcases List.mem_cons.mp hp with h | h
          · subst h
            have hfp : fan.profile = none :=
              hdisc (name, fan) (List.mem_cons_self _ fans)
            cases hd : dictGet nvdict "profile" with
            | none => simp [updateFan, hd, hfp] at hps
            | some l =>
                simp only [updateFan, hd] at hps
                rw [Option.some_inj] at hps
                rw [← hps]
                simp
          · exact ih modes (fun r hr => hdisc r (List.mem_cons_of_mem _ hr)) p h ps hps

/-- C1 counterexample: with the daemon installed but its configuration
file decoding to no blocks, the single discovered fan is registered
without any profile list, so its profile list does not contain
"manual". -/
theorem fanProfiles_missing_manual_cex :
    ¬ (∀ p ∈ initFanList
          [("pwmfan", ⟨"/sys/class/hwmon/hwmon0",
              ["/sys/class/hwmon/hwmon0/pwm1"], none, none, none⟩)]
          true [] [],
        hasManual p.2 = true) := by
  decide

/-- C1 amended: every registered unit that has a profile list has
"manual" in it; when the daemon is not installed every unit gets a
profile list, but when the daemon is installed a unit that is not
positionally paired with a daemon configuration block carrying
profiles is registered without a profile list. -/
theorem fanProfiles_manual_amended
    (discovered : List (String × FanUnit)) (nvInstalled : Bool)
    (nvModes : List (String × List (String × List String)))
    (isfile : List String)
    (hdisc : ∀ p ∈ discovered, (p.2).profile = none) :
    (∀ p ∈ initFanList discovered nvInstalled nvModes isfile,
        ∀ ps, (p.2).profile = some ps → "manual" ∈ ps) ∧
    (nvInstalled = false →
      ∀ p ∈ initFanList discovered nvInstalled nvModes isfile,
        hasManual p.2 = true) := by
  constructor
  · intro p hp ps hps
    unfold initFanList at hp
    cases nvInstalled with
    | true =>
        rw [if_pos rfl] at hp
        exact applyNvModes_manual discovered nvModes hdisc p hp ps hps
    | false =>
        rw [if_neg Bool.false_ne_true] at hp
        obtain ⟨q, hq, hpq⟩ := List.mem_map.mp hp
        subst hpq
        dsimp only at hps
        unfold initLocalFan at hps
        by_cases hc : q.2.path ++ "/temp_control" ∈ isfile
        · rw [if_pos hc] at hps
          cases hps
          simp
        · rw [if_neg hc] at hps
          cases hps
          simp
  · intro hnv p hp
    subst hnv
    unfold initFanList at hp
    rw [if_neg Bool.false_ne_true] at hp
    obtain ⟨q, hq, hpq⟩ := List.mem_map.mp hp
    subst hpq
    unfold hasManual initLocalFan
    dsimp only
    by_cases hc : q.2.path ++ "/temp_control" ∈ isfile
    · rw [if_pos hc]
      simp
    · rw [if_neg hc]
      simp

/-- C2 (code bug): on a locally managed fan whose writable control
node reads 0, set_profile("temp_control") succeeds but writes "0" to
the node — the source computes the value as
"0" if FAN_MANUAL_NAME else "1", a constant-true condition — so
get_profile afterwards still returns "manual", not "temp_control". -/
theorem set_profile_writes_zero_bug :
    get_profileS localState "fan0" = some "manual" ∧
    set_profileS localState "fan0" "temp_control"
      = some (true, localState2,
          [Effect.writeNode "/c" "0", Effect.configSet]) ∧
    get_profileS localState2 "fan0" = some "manual" := by
  decide

/-- C10: with an empty status snapshot the convenience accessors
profile, speed and rpm of the client facade return None instead of
raising, and their setters do nothing (no command, no error). -/
theorem empty_snapshot_accessors
    (st : ClientState) (pv : String) (sv : Rat)
    (h : st.data = []) :
    profileProp st = Except.ok none ∧
    speedProp st = Except.ok none ∧
    rpmProp st = Except.ok none ∧
    profileSetter st pv = some (Except.ok none) ∧
    speedSetter st sv = Except.ok none := by
  refine ⟨?_, ?_, ?_, ?_, ?_⟩
  · unfold profileProp; rw [h]
  · unfold speedProp; rw [h]
  · unfold rpmProp; rw [h]
  · unfold profileSetter; rw [h]
  · unfold speedSetter; rw [h]

/-- C10 witness: the empty snapshot instantiated concretely. -/
theorem empty_snapshot_accessors_witness :
    profileProp ⟨[], []⟩ = Except.ok none ∧
    speedProp ⟨[], []⟩ = Except.ok none ∧
    rpmProp ⟨[], []⟩ = Except.ok none ∧
    profileSetter ⟨[], []⟩ "manual" = some (Except.ok none) ∧
    speedSetter ⟨[], []⟩ 42 = Except.ok none :=
  empty_snapshot_accessors ⟨[], []⟩ "manual" 42 rfl

/-- C4: with an unregistered fan name, the client facade raises a
JtopException naming the fan and places nothing on the command
channel, and the service logs an error naming the fan and returns
without touching the configuration, any node or systemd. -/
theorem unknown_fan_rejected
    (st : ClientState) (s : ServiceState) (name profile : String)
    (speed : Rat) (idx : Int)
    (hc : dictGet st.data name = none)
    (hs : dictGet s.fan_list name = none) :
    set_profileC st name profile = some (Except.error (unknownFanMsg name)) ∧
    set_speedC st name speed idx = Except.error (unknownFanMsg name) ∧
    set_profileS s name profile
      = some (false, s, [Effect.logError (unknownFanMsg name)]) ∧
    set_speedS s name speed idx
      = some (s, [Effect.logError ("This fan " ++ name ++ " doesn\x27t exist")]) := by
  refine ⟨?_, ?_, ?_, ?_⟩
  · unfold set_profileC; rw [hc]
  · unfold set_speedC; rw [hc]
  · unfold set_profileS unknownFanMsg; rw [hs]
  · unfold set_speedS; rw [hs]

/-- C4 witness: an empty registry and snapshot rejecting fan9. -/
theorem unknown_fan_rejected_witness :
    set_profileC ⟨[], []⟩ "fan9" "manual"
      = some (Except.error (unknownFanMsg "fan9")) ∧
    set_speedC ⟨[], []⟩ "fan9" 10 0 = Except.error (unknownFanMsg "fan9") ∧
    set_profileS ⟨[], false, [], ⟨[], [], false, [], false⟩⟩ "fan9" "manual"
      = some (false, ⟨[], false, [], ⟨[], [], false, [], false⟩⟩,
          [Effect.logError (unknownFanMsg "fan9")]) ∧
    set_speedS ⟨[], false, [], ⟨[], [], false, [], false⟩⟩ "fan9" 10 0
      = some (⟨[], false, [], ⟨[], [], false, [], false⟩⟩,
          [Effect.logError ("This fan " ++ "fan9" ++ " doesn\x27t exist")]) :=
  unknown_fan_rejected ⟨[], []⟩ ⟨[], false, [], ⟨[], [], false, [], false⟩⟩
    "fan9" "manual" 10 0 rfl rfl

/-- C5 counterexample: the service-side set_speed is not a no-op when
called with the value last recorded for that index: on a state whose
configuration already records (50, 0) and whose node already holds the
matching raw value, it rewrites the configuration and the node again
(the effect trace is nonempty). -/
theorem service_set_speed_not_noop_cex :
    set_speedS repeatState "fan0" 50 0
      = some (repeatState, [Effect.configSet, Effect.writeNode "p0" "128"])
    ∧ [Effect.configSet, Effect.writeNode "p0" "128"] ≠ ([] : List Effect) := by
  have h2 : ValueToPWM (clampSpeed 50) FAN_PWM_CAP = 128 := by
    norm_num [ValueToPWM, pyInt, clampSpeed, FAN_PWM_CAP]
  refine ⟨?_, by decide⟩
  simp only [set_speedS, h2]
  decide

/-- C5 amended: the client facade skips emitting a command when the
requested value equals the one in its snapshot, and the service-side
set_profile is a no-op (no effect, state unchanged) when the requested
profile equals the one get_profile currently reports; the service-side
set_speed, however, rewrites the configuration and the node
unconditionally on every accepted call (see the counterexample). -/
theorem idempotent_mutations_amended
    (st : ClientState) (s : ServiceState) (name p : String) (d : FanData)
    (profs : List String) (idx : Int)
    (hd : dictGet st.data name = some d)
    (hi : dictGet st.init name = some profs)
    (hp : d.profile ∈ profs)
    (h0 : 0 ≤ idx) (hlen : idx < (d.speed.length : Int))
    (hfan : (dictGet s.fan_list name).isSome = true)
    (hcur : get_profileS s name = some p) :
    set_profileC st name d.profile = some (Except.ok none) ∧
    set_speedC st name (d.speed.getD idx.toNat 0) idx = Except.ok none ∧
    set_profileS s name p = some (true, s, []) := by
  refine ⟨?_, ?_, ?_⟩
  · unfold set_profileC all_profilesC
    rw [hd, hi]
    simp [hp]
  · unfold set_speedC
    have hbound : ¬ ((d.speed.length : Int) ≤ idx ∨ idx < 0) := by omega
    simp only [hd, if_neg hbound]
    simp
  · obtain ⟨fan, hfan2⟩ := Option.isSome_iff_exists.mp hfan
    unfold set_profileS
    simp only [hfan2, hcur]
    simp

/-- C5 amended witness: the client skipping a repeated profile and a
repeated speed, and the service skipping a profile equal to the
current one. -/
theorem idempotent_mutations_amended_witness :
    set_profileC clientState "fan0" (FanData.profile ⟨[40], none, "manual"⟩)
      = some (Except.ok none) ∧
    set_speedC clientState "fan0"
        ((FanData.speed ⟨[40], none, "manual"⟩).getD (Int.toNat 0) 0) 0
      = Except.ok none ∧
    set_profileS localState "fan0" "manual" = some (true, localState, []) :=
  idempotent_mutations_amended clientState localState "fan0" "manual"
    ⟨[40], none, "manual"⟩ ["temp_control", "manual"] 0
    rfl rfl (by decide) (by decide) (by decide) (by decide) (by decide)

/-- C6 counterexample: the service-side set_speed does not reject a
negative index: with a single pwm channel, index -1 passes the bound
check, the configuration records (30, -1), and the node selected from
the back of the channel list is written. -/
theorem service_negative_index_cex :
    set_speedS negState "fan0" 30 (-1)
      = some (negState2, [Effect.configSet, Effect.writeNode "p0" "76"]) := by
  have h2 : ValueToPWM (clampSpeed 30) FAN_PWM_CAP = 76 := by
    norm_num [ValueToPWM, pyInt, clampSpeed, FAN_PWM_CAP]
  simp only [set_speedS, h2]
  decide

/-- C6 amended: the client facade rejects both negative indices and
indices at or above the channel count with the bad-index error naming
the fan; the service rejects only indices at or above the channel
count (a negative index slips through to Python negative indexing). -/
theorem bad_index_rejected_amended
    (s : ServiceState) (st : ClientState) (name : String) (fan : FanUnit)
    (d : FanData) (speed : Rat) (idxS idxC : Int)
    (hs : dictGet s.fan_list name = some fan)
    (hc : dictGet st.data name = some d)
    (hidxS : (fan.pwm.length : Int) ≤ idxS)
    (hidxC : idxC < 0 ∨ (d.speed.length : Int) ≤ idxC) :
    set_speedS s name speed idxS
      = some (s, [Effect.logError
          ("Wrong index " ++ toString idxS ++ " for " ++ name)]) ∧
    set_speedC st name speed idxC
      = Except.error (badIndexMsg name d.speed.length) := by
  constructor
  · unfold set_speedS
    rw [hs]
    simp only [if_pos hidxS]
  · unfold set_speedC
    simp only [hc]
    rw [if_pos (Or.symm hidxC)]

/-- C6 amended witness: index 1 rejected by the service and index -1
rejected by the client, on one-channel fans. -/
theorem bad_index_rejected_amended_witness :
    set_speedS negState "fan0" 30 1
      = some (negState, [Effect.logError
          ("Wrong index " ++ toString (1:Int) ++ " for " ++ "fan0")]) ∧
    set_speedC clientState "fan0" 30 (-1)
      = Except.error (badIndexMsg "fan0"
          (FanData.speed ⟨[40], none, "manual"⟩).length) :=
  bad_index_rejected_amended negState clientState "fan0"
    ⟨"/h0", ["p0"], none, none, some ["manual"]⟩ ⟨[40], none, "manual"⟩
    30 1 (-1) rfl rfl (by decide) (by decide)

/-- C8: a header line matching <FAN n> opens the block keyed fan{n};
an option line FAN_TYPE VALUE -brace appends VALUE to the list keyed
by the lowercased TYPE inside the current block, preserving first-seen
order; the example file with one <FAN 0> block and two FAN_PROFILE
lines parses to fan0 / profile [a, b]; files with zero or several
blocks are handled. -/
theorem nvconf_parsing :
    (∀ (st : NvState) (line : String) (ds : List Char),
        parseFanNum (pyStrip line.toList) = some ds →
        decodeStep st line
          = some ⟨dictSet st.nvfan ("fan" ++ String.mk ds) [],
              "fan" ++ String.mk ds⟩) ∧
    (∀ (st : NvState) (line : String) (ty v : List Char)
        (block : List (String × List String)),
        parseFanNum (pyStrip line.toList) = none →
        searchOptions (pyStrip line.toList) = some (ty, v) →
        dictGet st.nvfan st.current = some block →
        decodeStep st line
          = some ⟨dictSet st.nvfan st.current
              (dictSet block (String.mk (pyLower ty))
                ((dictGet block (String.mk (pyLower ty))).getD []
                  ++ [String.mk v])),
              st.current⟩) ∧
    decode_nvfancontrol ["<FAN 0>", "FAN_PROFILE a \x7b", "FAN_PROFILE b \x7b"]
      = some [("fan0", [("profile", ["a", "b"])])] ∧
    decode_nvfancontrol [] = some [] ∧
    decode_nvfancontrol ["<FAN 0>", "FAN_PROFILE quiet \x7b",
        "FAN_GOVERNOR g1 \x7b", "FAN_PROFILE cool \x7b", "<FAN 1>",
        "FAN_PROFILE max \x7b"]
      = some [("fan0", [("profile", ["quiet", "cool"]), ("governor", ["g1"])]),
              ("fan1", [("profile", ["max"])])] := by
  refine ⟨?_, ?_, by decide, by decide, by decide⟩
  · intro st line ds hmatch
    simp only [decodeStep, hmatch]
  · intro st line ty v block hn hs hb
    simp only [decodeStep, hn, hs, hb]

/-- C8 witness: the header step applied to the line <FAN 2> from the
empty parse state. -/
theorem nvconf_parsing_witness :
    decodeStep ⟨[], ""⟩ "<FAN 2>"
      = some ⟨dictSet ([] : List (String × List (String × List String)))
          ("fan" ++ String.mk ['2']) [], "fan" ++ String.mk ['2']⟩ :=
  nvconf_parsing.1 ⟨[], ""⟩ "<FAN 2>" ['2'] (by decide)

/-- C9: under daemon control, an accepted profile change first stops
the daemon when it is active; for a non-manual profile it then
rewrites the configuration default, removes the cached status file
when present, and only then starts the service; for "manual" it leaves
the daemon stopped with neither the default rewrite nor a service
start.  (The trailing configSet is the persisting of the choice to the
jtop configuration, outside the daemon.) -/
theorem daemon_profile_sequence
    (s : ServiceState) (name profile cur : String) (fan : FanUnit)
    (profs : List String) (r : Bool) (s2 : ServiceState)
    (effs : List Effect)
    (hnv : s.nvfancontrol = true)
    (hfan : dictGet s.fan_list name = some fan)
    (hprofs : fan.profile = some profs)
    (hmem : profile ∈ profs)
    (hcur : get_profileS s name = some cur)
    (hne : profile ≠ cur)
    (hrun : set_profileS s name profile = some (r, s2, effs)) :
    r = true ∧
    effs = (if s.env.nvActive then [Effect.systemctlStop] else [])
        ++ (if profile = "manual" then []
            else [Effect.nvRewriteDefault "profile" profile]
              ++ (if s.env.statusFile then [Effect.removeStatusFile] else [])
              ++ [Effect.systemctlStart])
        ++ [Effect.configSet] := by
  unfold set_profileS at hrun
  simp only [hfan, hcur, if_neg hne] at hrun
  unfold applyProfileBranch at hrun
  simp only [hprofs, hnv, if_pos hmem, if_true] at hrun
  by_cases hm : profile = "manual"
  · simp only [if_pos hm] at hrun
    simp only [Option.some_inj, Prod.mk.injEq] at hrun
    obtain ⟨hr, _, heff⟩ := hrun
    refine ⟨hr.symm, ?_⟩
    rw [← heff]
    simp [hm]
  · simp only [if_neg hm] at hrun
    simp only [Option.some_inj, Prod.mk.injEq] at hrun
    obtain ⟨hr, _, heff⟩ := hrun
    refine ⟨hr.symm, ?_⟩
    rw [← heff]
    simp [hm]

/-- C9 witness: on the active daemon reporting profile "quiet" with a
cached status file present, setting "manual" yields exactly a stop
followed by the configuration persist. -/
theorem daemon_profile_sequence_witness :
    true = true ∧
    ([Effect.systemctlStop, Effect.configSet] : List Effect)
      = (if (daemonState.env).nvActive then [Effect.systemctlStop] else [])
        ++ (if "manual" = "manual" then []
            else [Effect.nvRewriteDefault "profile" "manual"]
              ++ (if (daemonState.env).statusFile then [Effect.removeStatusFile] else [])
              ++ [Effect.systemctlStart])
        ++ [Effect.configSet] :=
  daemon_profile_sequence daemonState "fan0" "manual" "quiet" daemonFanUnit
    ["quiet", "cool", "manual"] true daemonState2
    [Effect.systemctlStop, Effect.configSet]
    rfl rfl rfl (by decide) (by decide) (by decide) (by decide)

/-- C1 amended witness: a one-fan registry without the daemon, the
control toggle file absent: the unit gets the profile list
["manual"]. -/
theorem fanProfiles_manual_amended_witness :
    (∀ p ∈ initFanList
          [("pwmfan", ⟨"/h0", ["/h0/pwm1"], none, none, none⟩)] false [] [],
        ∀ ps, (p.2).profile = some ps → "manual" ∈ ps) ∧
    (false = false →
      ∀ p ∈ initFanList
          [("pwmfan", ⟨"/h0", ["/h0/pwm1"], none, none, none⟩)] false [] [],
        hasManual p.2 = true) :=
  fanProfiles_manual_amended
    [("pwmfan", ⟨"/h0", ["/h0/pwm1"], none, none, none⟩)] false [] []
    (by decide)
